import Mathlib

/-!
Verification development for the Image-to-PDF document editor
(src/app.py).  The image-processing utilities and the session-state
operations of the application are shallowly embedded as executable Lean
definitions; external library collaborators (the CLAHE filter and the
image decoder) are passed in as explicit function parameters.  Pixel
intensities are natural numbers; the floating-point contrast value is
modelled as a rational.
-/

namespace ImageToPdf

/-- Matrices of pixels are lists of rows. -/
abbrev Mat (α : Type) := List (List α)

/-- Pointwise map over a matrix. -/
def mapMat (f : α → β) (m : Mat α) : Mat β := m.map (List.map f)

/-- One pixel of a 3-channel image, channels in storage order (BGR for
images decoded by the code, RGB after the final conversion). -/
structure Pix where
  c1 : ℕ
  c2 : ℕ
  c3 : ℕ
deriving DecidableEq

/-- An in-memory raster image: 2-dimensional grayscale or 3-channel color,
mirroring the two shapes the code tests with len(img.shape). -/
inductive Img where
  | gray (m : Mat ℕ)
  | color (m : Mat Pix)
deriving DecidableEq

/-- The type of the external CLAHE collaborator cv2.createCLAHE(...).apply:
clip limit, tile grid, grayscale in, grayscale out. -/
abbrev Clahe := ℚ → ℕ × ℕ → Mat ℕ → Mat ℕ

/-- The type of the external decoder cv2.imdecode: raw bytes to an image,
None on undecodable input. -/
abbrev Imdecode := List ℕ → Option Img

/-- Luminance of one BGR pixel, the conversion cv2.COLOR_BGR2GRAY computes:
(299 R + 587 G + 114 B) / 1000, rounded half-up, written with natural-number
division so that it evaluates in the kernel. -/
def grayOfPix (p : Pix) : ℕ :=
  (2 * (299 * p.c3 + 587 * p.c2 + 114 * p.c1) + 1000) / 2000

/-- Embeds to_gray (cv2.cvtColor COLOR_BGR2GRAY): defined on 3-channel
input only; cv2 raises on a 2-dimensional array. -/
def to_gray : Img → Option (Mat ℕ)
  | .color m => some (mapMat grayOfPix m)
  | .gray _ => none

/-- Embeds enhance_contrast: builds the external CLAHE filter with the
given clip limit and square tile grid and applies it. -/
def enhance_contrast (clahe : Clahe) (g : Mat ℕ) (clip : ℚ) (tiles : ℕ) : Mat ℕ :=
  clahe clip (tiles, tiles) g

/-- One channel of cv2.convertScaleAbs: the absolute value of the affine
transform v * contrast + brightness, rounded half-up, saturated above at
255.  Note the absolute value: a negative intermediate is reflected, not
clamped to 0.  The exact rational v * contrast + brightness is
(v * contrast.num + brightness * contrast.den) / contrast.den, and the
computation is written over integers so that it evaluates in the kernel;
the lemma scaleAbs_eq_round below restates it with round and abs on ℚ. -/
def scaleAbs (contrast : ℚ) (brightness : ℤ) (v : ℕ) : ℕ :=
  min 255
    ((2 * ((v : ℤ) * contrast.num + brightness * (contrast.den : ℤ)).natAbs + contrast.den) /
      (2 * contrast.den))

/-- Embeds adjust_brightness_contrast (cv2.convertScaleAbs with
alpha = contrast, beta = brightness), applied per channel. -/
def adjust_brightness_contrast (img : Img) (brightness : ℤ) (contrast : ℚ) : Img :=
  match img with
  | .gray m => .gray (mapMat (scaleAbs contrast brightness) m)
  | .color m => .color (mapMat (fun p =>
      ⟨scaleAbs contrast brightness p.c1,
       scaleAbs contrast brightness p.c2,
       scaleAbs contrast brightness p.c3⟩) m)

/-- Clockwise quarter turn of a matrix (cv2.ROTATE_90_CLOCKWISE). -/
def rot90cw (m : Mat α) : Mat α := m.reverse.transpose

/-- Half turn of a matrix (cv2.ROTATE_180). -/
def rot180 (m : Mat α) : Mat α := (m.map List.reverse).reverse

/-- Counterclockwise quarter turn of a matrix (cv2.ROTATE_90_COUNTERCLOCKWISE). -/
def rot90ccw (m : Mat α) : Mat α := m.transpose.reverse

/-- Embeds cv2.rotate ROTATE_90_CLOCKWISE on either image shape. -/
def rotate90cw : Img → Img
  | .gray m => .gray (rot90cw m)
  | .color m => .color (rot90cw m)

/-- Embeds cv2.rotate ROTATE_180 on either image shape. -/
def rotate180 : Img → Img
  | .gray m => .gray (rot180 m)
  | .color m => .color (rot180 m)

/-- Embeds cv2.rotate ROTATE_90_COUNTERCLOCKWISE on either image shape. -/
def rotate90ccw : Img → Img
  | .gray m => .gray (rot90ccw m)
  | .color m => .color (rot90ccw m)

/-- Channel swap performed by cv2.cvtColor COLOR_BGR2RGB. -/
def bgr2rgb (p : Pix) : Pix := ⟨p.c3, p.c2, p.c1⟩

/-- The per-document settings dictionary of the code: keys style,
brightness, contrast, rotate. -/
structure Settings where
  style : String
  brightness : ℤ
  contrast : ℚ
  rotate : ℤ
deriving DecidableEq

/-- The final conversion at the end of process_image (lines 63-66): a
2-dimensional result goes through Image.fromarray(...).convert("RGB"),
which replicates the single channel to three; a 3-channel result is used
as is. -/
def finalToPIL : Img → Mat Pix
  | .gray m => mapMat (fun v => ⟨v, v, v⟩) m
  | .color m => m

/-- Embeds process_image: rotate, then brightness/contrast, then the style
branches, then the final conversion to a 3-channel PIL image.  The result
variable processed_img is assigned only inside the two style branches, so
an unknown style raises NameError, embedded as none. -/
def process_image (clahe : Clahe) (bgr : Img) (settings : Settings) : Option (Mat Pix) :=
  let processed_bgr :=
    if settings.rotate = 90 then rotate90cw bgr
    else if settings.rotate = 180 then rotate180 bgr
    else if settings.rotate = 270 then rotate90ccw bgr
    else bgr
  let processed_bgr2 := adjust_brightness_contrast processed_bgr settings.brightness settings.contrast
  let processed_img : Option Img :=
    if settings.style = "Black & White" then
      (to_gray processed_bgr2).map (fun g => Img.gray (enhance_contrast clahe g 2 8))
    else if settings.style = "Original" then
      some (match processed_bgr2 with
        | .color m => .color (mapMat bgr2rgb m)
        | .gray m => .gray m)
    else none
  processed_img.map finalToPIL

/-- The brightness/contrast step as the spec words it: the affine value
clamped to [0, 255] (instead of the absolute value the code computes),
rounded half-up.  Used only to compare the code against the spec. -/
def bc_spec_pixel (contrast : ℚ) (brightness : ℤ) (v : ℕ) : ℕ :=
  let p : ℤ := (v : ℤ) * contrast.num + brightness * (contrast.den : ℤ)
  if p < 0 then 0 else min 255 ((2 * p.toNat + contrast.den) / (2 * contrast.den))

/-- The brightness/contrast step of the spec applied per channel, for the
spec-side render pipeline. -/
def adjust_bc_spec (img : Img) (brightness : ℤ) (contrast : ℚ) : Img :=
  match img with
  | .gray m => .gray (mapMat (bc_spec_pixel contrast brightness) m)
  | .color m => .color (mapMat (fun p =>
      ⟨bc_spec_pixel contrast brightness p.c1,
       bc_spec_pixel contrast brightness p.c2,
       bc_spec_pixel contrast brightness p.c3⟩) m)

/-- The render pipeline as the spec words it: identical to process_image
except that the brightness/contrast step clamps the affine value to
[0, 255] instead of taking its absolute value.  Used only to compare the
code against the spec. -/
def process_image_spec (clahe : Clahe) (bgr : Img) (settings : Settings) : Option (Mat Pix) :=
  let processed_bgr :=
    if settings.rotate = 90 then rotate90cw bgr
    else if settings.rotate = 180 then rotate180 bgr
    else if settings.rotate = 270 then rotate90ccw bgr
    else bgr
  let processed_bgr2 := adjust_bc_spec processed_bgr settings.brightness settings.contrast
  let processed_img : Option Img :=
    if settings.style = "Black & White" then
      (to_gray processed_bgr2).map (fun g => Img.gray (enhance_contrast clahe g 2 8))
    else if settings.style = "Original" then
      some (match processed_bgr2 with
        | .color m => .color (mapMat bgr2rgb m)
        | .gray m => .gray m)
    else none
  processed_img.map finalToPIL

/-- The three steps of process_image named individually, to state the
pipeline-order claim: the rotation dispatch of lines 36-43. -/
def rotate_step (rot : ℤ) (img : Img) : Img :=
  if rot = 90 then rotate90cw img
  else if rot = 180 then rotate180 img
  else if rot = 270 then rotate90ccw img
  else img

/-- The style dispatch of lines 52-61: Black & White converts to gray and
applies CLAHE; Original converts a 3-channel image to RGB; any other style
leaves the result variable unassigned (NameError, embedded as none). -/
def style_step (clahe : Clahe) (style : String) (img : Img) : Option Img :=
  if style = "Black & White" then
    (to_gray img).map (fun g => Img.gray (enhance_contrast clahe g 2 8))
  else if style = "Original" then
    some (match img with
      | .color m => .color (mapMat bgr2rgb m)
      | .gray m => .gray m)
  else none

/-- One uploaded file as Streamlit hands it to initialize_state: its unique
file_id, its display name, and its raw encoded bytes. -/
structure Upload where
  file_id : String
  name : String
  raw : List ℕ
deriving DecidableEq

/-- One entry of st.session_state.images: the stored file_id, the decoded
original image (None when cv2.imdecode failed, exactly as the code stores
it), the file name, and the per-document settings. -/
structure Doc where
  file_id : String
  original_bgr : Option Img
  name : String
  settings : Settings
deriving DecidableEq

/-- The session state the application keeps: the stored file_id list, the
document list, the index of the document being edited, and the three
Streamlit widget keys (current_style, current_brightness,
current_contrast) that mirror the settings of the active document. -/
structure SessionState where
  file_ids : List String
  images : List Doc
  current_index : ℕ
  current_style : String
  current_brightness : ℤ
  current_contrast : ℚ
deriving DecidableEq

/-- The fresh document initialize_state appends for one upload: the decoded
bytes (stored even when decoding fails) and the default settings
Original / brightness 0 / contrast 1.0 / rotate 0. -/
def mkDoc (imdecode : Imdecode) (up : Upload) : Doc :=
  { file_id := up.file_id
    original_bgr := imdecode up.raw
    name := up.name
    settings := { style := "Original", brightness := 0, contrast := 1, rotate := 0 } }

/-- Embeds initialize_state (lines 71-101): when the incoming file_id list
differs from the stored one, the whole document list is rebuilt with
default settings and the index reset to 0; otherwise nothing changes.
Afterwards the index is clamped back to 0 when it is out of range. -/
def initialize_state (imdecode : Imdecode) (uploads : List Upload) (s : SessionState) :
    SessionState :=
  let current_file_ids := uploads.map (fun u => u.file_id)
  let s1 :=
    if s.file_ids ≠ current_file_ids then
      { s with file_ids := current_file_ids
               images := uploads.map (mkDoc imdecode)
               current_index := 0 }
    else s
  if s1.images.length ≤ s1.current_index then { s1 with current_index := 0 } else s1

/-- Embeds rotate_current_image (lines 114-118): adds 90 modulo 360 to the
rotate setting of the active document.  Indexing out of range raises in
Python, embedded as none. -/
def rotate_current_image (s : SessionState) : Option SessionState :=
  (s.images.get? s.current_index).map (fun doc =>
    let doc2 : Doc :=
      { doc with settings := { doc.settings with rotate := (doc.settings.rotate + 90) % 360 } }
    { s with images := s.images.set s.current_index doc2 })

/-- Embeds update_current_image_settings (lines 131-135): overwrites the
style, brightness and contrast of the active document with the widget
values, touching neither rotate nor any other document.  No validation is
performed.  Indexing out of range raises in Python, embedded as none. -/
def update_current_image_settings (s : SessionState) : Option SessionState :=
  (s.images.get? s.current_index).map (fun doc =>
    let doc2 : Doc :=
      { doc with settings :=
          { doc.settings with
            style := s.current_style
            brightness := s.current_brightness
            contrast := s.current_contrast } }
    { s with images := s.images.set s.current_index doc2 })

/-- Embeds apply_to_all (lines 120-129): builds one settings record from
the three widget values plus the rotate value of the active document, and
stores a copy of it into every document.  Indexing out of range raises in
Python, embedded as none. -/
def apply_to_all (s : SessionState) : Option SessionState :=
  (s.images.get? s.current_index).map (fun doc =>
    let current_settings : Settings :=
      { style := s.current_style
        brightness := s.current_brightness
        contrast := s.current_contrast
        rotate := doc.settings.rotate }
    { s with images := s.images.map (fun d => { d with settings := current_settings }) })

/-- The dictionary comprehension building image_data_map (line 260): maps a
file_id to the document carrying it; with duplicate ids the last one wins,
as in a Python dict.  A missing id raises KeyError, embedded as none. -/
def image_data_map (images : List Doc) (fid : String) : Option Doc :=
  images.reverse.find? (fun d => d.file_id == fid)

/-- The loop of lines 262-263: looks each id of the new order up in
image_data_map and collects the documents; the first missing id aborts the
whole rebuild (KeyError). -/
def build_new_image_list (images : List Doc) : List String → Option (List Doc)
  | [] => some []
  | fid :: rest =>
    match image_data_map images fid with
    | none => none
    | some d =>
      match build_new_image_list images rest with
      | none => none
      | some l => some (d :: l)

/-- Embeds the reorder block under the page_order_editor (lines 252-267):
when the edited id order differs from the current one, the document list
is rebuilt by id lookup; current_index is not touched. -/
def page_order_reorder (new_file_id_order : List String) (s : SessionState) :
    Option SessionState :=
  if s.images.map (fun d => d.file_id) = new_file_id_order then some s
  else (build_new_image_list s.images new_file_id_order).map
    (fun l => { s with images := l })

/-- A concrete instantiation of the external CLAHE collaborator, used only
in closed witness and counterexample statements. -/
def claheArb : Clahe := fun _ _ g => g

/-- A concrete 1-by-1 color image. -/
def imgA : Img := Img.color [[⟨1, 2, 3⟩]]

/-- A second concrete 1-by-1 color image. -/
def imgB : Img := Img.color [[⟨4, 5, 6⟩]]

/-- A concrete document with edited settings. -/
def docA : Doc :=
  { file_id := "a", original_bgr := some imgA, name := "A.jpg",
    settings := { style := "Original", brightness := 7, contrast := 1, rotate := 90 } }

/-- A second concrete document with edited settings. -/
def docB : Doc :=
  { file_id := "b", original_bgr := some imgB, name := "B.jpg",
    settings := { style := "Black & White", brightness := 0, contrast := 1, rotate := 270 } }

/-- A concrete session holding docA and docB, editing docA, with the
widget keys mirroring the settings of docA. -/
def sAB : SessionState :=
  { file_ids := ["a", "b"], images := [docA, docB], current_index := 0,
    current_style := "Original", current_brightness := 7, current_contrast := 1 }

/-- The session sAB after the reorder block has run on the id order b, a. -/
def sBA : SessionState := { sAB with images := [docB, docA] }

/-- A concrete session whose brightness widget holds the out-of-range
value 500. -/
def sBad : SessionState :=
  { file_ids := ["a"], images := [docA], current_index := 0,
    current_style := "Original", current_brightness := 500, current_contrast := 1 }

/-- A concrete decoder that fails on the byte list [9] and decodes
anything else to imgA, instantiating cv2.imdecode in closed statements. -/
def imdecodeTest : Imdecode := fun raw => if raw = [9] then none else some imgA

/-- The startup session state of lines 143-146: no documents, index 0;
the widget keys take arbitrary initial values. -/
def s0 : SessionState :=
  { file_ids := [], images := [], current_index := 0,
    current_style := "Original", current_brightness := 0, current_contrast := 1 }

/-- A fallback document for Option.getD; the proofs only use it under a
successful lookup, so it is never selected. -/
def dfltDoc : Doc := ⟨"", none, "", ⟨"Original", 0, 1, 0⟩⟩

/-- The document list the reorder block produces when every id of the new
order is present: each id replaced by the document the lookup map yields. -/
def reorderedImages (s : SessionState) (new_order : List String) : List Doc :=
  new_order.map (fun fid => (image_data_map s.images fid).getD dfltDoc)

/-- The settings record apply_to_all assembles: the three widget values
plus the rotation of the active document. -/
def widgetSettings (s : SessionState) (doc : Doc) : Settings :=
  { style := s.current_style, brightness := s.current_brightness,
    contrast := s.current_contrast, rotate := doc.settings.rotate }

lemma find_eq_of_nodup (l : List Doc) (h : (l.map (fun d => d.file_id)).Nodup)
    (d : Doc) (hd : d ∈ l) :
    l.find? (fun x => x.file_id == d.file_id) = some d := by
  induction l with
  | nil => cases hd
  | cons a t ih =>
    rw [List.map_cons, List.nodup_cons] at h
    rcases List.mem_cons.mp hd with rfl | hdt
    · exact List.find?_cons_of_pos _ (by simp)
    · have hfalse : (a.file_id == d.file_id) = false := by
        simp only [beq_eq_false_iff_ne, ne_eq]
        intro he
        exact h.1 (he ▸ List.mem_map_of_mem (fun d => d.file_id) hdt)
      rw [List.find?_cons, hfalse]
      exact ih h.2 hdt

lemma image_data_map_mem (images : List Doc)
    (h : (images.map (fun d => d.file_id)).Nodup) (d : Doc) (hd : d ∈ images) :
    image_data_map images d.file_id = some d := by
  unfold image_data_map
  apply find_eq_of_nodup
  · rw [List.map_reverse]
    exact List.nodup_reverse.mpr h
  · exact List.mem_reverse.mpr hd

lemma image_data_map_isSome_iff (images : List Doc) (fid : String) :
    (image_data_map images fid).isSome ↔ fid ∈ images.map (fun d => d.file_id) := by
  unfold image_data_map
  rw [List.find?_isSome]
  constructor
  · rintro ⟨d, hd, hp⟩
    exact List.mem_map.mpr ⟨d, List.mem_reverse.mp hd, by simpa using hp⟩
  · intro hmem
    rcases List.mem_map.mp hmem with ⟨d, hd, rfl⟩
    exact ⟨d, List.mem_reverse.mpr hd, by simp⟩

lemma build_new_image_list_isSome_iff (images : List Doc) (order : List String) :
    (build_new_image_list images order).isSome ↔
      ∀ fid ∈ order, fid ∈ images.map (fun d => d.file_id) := by
  induction order with
  | nil => simp [build_new_image_list]
  | cons fid rest ih =>
    rw [build_new_image_list]
    cases hmap : image_data_map images fid with
    | none =>
      have hnot : ¬ fid ∈ images.map (fun d => d.file_id) := by
        rw [← image_data_map_isSome_iff, hmap]
        simp
      exact ⟨fun hfalse => absurd hfalse Bool.false_ne_true,
        fun hall => absurd (hall fid (List.mem_cons_self fid rest)) hnot⟩
    | some d =>
      have hfid : fid ∈ images.map (fun d => d.file_id) := by
        rw [← image_data_map_isSome_iff, hmap]
        simp
      cases hb : build_new_image_list images rest with
      | none => simp_all
      | some l => simp_all

lemma build_new_image_list_map (images : List Doc) (order : List String) (f : String → Doc)
    (h : ∀ fid ∈ order, image_data_map images fid = some (f fid)) :
    build_new_image_list images order = some (order.map f) := by
  induction order with
  | nil => rfl
  | cons fid rest ih =>
    rw [build_new_image_list, h fid (List.mem_cons_self fid rest),
      ih (fun x hx => h x (List.mem_cons_of_mem _ hx))]
    rfl

lemma rotate_dispatch_color (rot : ℤ) (m : Mat Pix) :
    ∃ m2, (if rot = 90 then rotate90cw (Img.color m)
      else if rot = 180 then rotate180 (Img.color m)
      else if rot = 270 then rotate90ccw (Img.color m)
      else Img.color m) = Img.color m2 := by
  split_ifs <;> exact ⟨_, rfl⟩

lemma process_image_isSome_iff (clahe : Clahe) (m : Mat Pix) (s : Settings) :
    (process_image clahe (Img.color m) s).isSome ↔
      (s.style = "Original" ∨ s.style = "Black & White") := by
  unfold process_image
  obtain ⟨m1, hm1⟩ := rotate_dispatch_color s.rotate m
  rw [hm1]
  by_cases h1 : s.style = "Black & White"
  · simp [h1, adjust_brightness_contrast, to_gray]
  · by_cases h2 : s.style = "Original"
    · simp [h1, h2]
    · simp [h1, h2]

/-- Claim C10: the render assigns its result only inside the two style
branches, so on a 3-channel input it produces an image exactly when the
style is Original or Black & White, and for any other style value it
raises (NameError), embedded as returning none. -/
theorem process_image_defined_iff_known_style (clahe : Clahe) (m : Mat Pix) (s : Settings) :
    (process_image clahe (Img.color m) s).isSome ↔
      (s.style = "Original" ∨ s.style = "Black & White") :=
  process_image_isSome_iff clahe m s

/-- Claim C3 (amended): the reorder block does not recompute the active
index at all; whenever it produces a new state, current_index is carried
over positionally unchanged. -/
theorem reorder_keeps_current_index (new_order : List String) (s s2 : SessionState)
    (h : page_order_reorder new_order s = some s2) :
    s2.current_index = s.current_index := by
  unfold page_order_reorder at h
  split at h
  · cases h; rfl
  · cases hb : build_new_image_list s.images new_order with
    | none => rw [hb] at h; cases h
    | some l =>
      rw [hb] at h
      cases h
      rfl

/-- Witness for C3: the concrete reorder of sAB to the id order b, a keeps
current_index at 0. -/
theorem reorder_keeps_current_index_witness : sBA.current_index = sAB.current_index :=
  reorder_keeps_current_index ["b", "a"] sAB sBA (by decide)

/-- Counterexample for C3 as stated: in sAB the active document (index 0)
carries id a; after reordering to b, a the code leaves the index at 0,
where the document with id b now sits, instead of following id a to
index 1. -/
theorem reorder_active_index_cx :
    (sAB.images.get? sAB.current_index).map (fun d => d.file_id) = some "a" ∧
    page_order_reorder ["b", "a"] sAB = some sBA ∧
    sBA.current_index = 0 ∧
    (sBA.images.get? 0).map (fun d => d.file_id) = some "b" ∧
    ("b" : String) ≠ "a" := by
  refine ⟨by decide, by decide, rfl, by decide, by decide⟩

/-- Claim C4 (amended): the reorder block validates nothing; it succeeds
exactly when every id of the new order occurs among the current document
ids, duplicates and omissions included, and a foreign id makes the lookup
raise (KeyError), embedded as none. -/
theorem reorder_succeeds_iff_ids_present (new_order : List String) (s : SessionState) :
    (page_order_reorder new_order s).isSome ↔
      ∀ fid ∈ new_order, fid ∈ s.images.map (fun d => d.file_id) := by
  unfold page_order_reorder
  split
  · rename_i heq
    simp only [Option.isSome_some, true_iff]
    intro fid hf
    rw [heq]
    exact hf
  · rw [Option.isSome_map']
    exact build_new_image_list_isSome_iff s.images new_order

/-- Counterexample for C4 as stated: the id order a, a is not a
permutation of the ids a, b of sAB (id a duplicated, id b missing), yet
the reorder block succeeds and replaces the document sequence by docA,
docA instead of failing and leaving it unchanged. -/
theorem reorder_no_permutation_check_cx :
    (page_order_reorder ["a", "a"] sAB).map (fun s2 => s2.images) = some [docA, docA] ∧
    sAB.images = [docA, docB] ∧
    ([docA, docA] : List Doc) ≠ [docA, docB] := by
  refine ⟨by decide, rfl, by decide⟩

/-- Claim C9: when the rotation of the active document is one of 0, 90,
180, 270, rotate_current_image advances it by 90 modulo 360, the result
stays in the set, and 270 wraps back to 0. -/
theorem rotate_current_image_mod360 (s : SessionState) (doc : Doc)
    (hget : s.images.get? s.current_index = some doc)
    (hr : doc.settings.rotate = 0 ∨ doc.settings.rotate = 90 ∨
          doc.settings.rotate = 180 ∨ doc.settings.rotate = 270) :
    ∃ s2, rotate_current_image s = some s2 ∧
      (s2.images.get? s.current_index).map (fun d => d.settings.rotate) =
        some ((doc.settings.rotate + 90) % 360) ∧
      ((doc.settings.rotate + 90) % 360 = 0 ∨ (doc.settings.rotate + 90) % 360 = 90 ∨
       (doc.settings.rotate + 90) % 360 = 180 ∨ (doc.settings.rotate + 90) % 360 = 270) ∧
      (doc.settings.rotate = 270 → (doc.settings.rotate + 90) % 360 = 0) := by
  have hlt : s.current_index < s.images.length := (List.get?_eq_some.mp hget).1
  unfold rotate_current_image
  rw [hget]
  refine ⟨_, rfl, ?_, ?_, ?_⟩
  · show ((s.images.set s.current_index _).get? s.current_index).map
      (fun d => d.settings.rotate) = some ((doc.settings.rotate + 90) % 360)
    rw [List.get?_set_eq_of_lt _ hlt]
    rfl
  · rcases hr with h | h | h | h <;> rw [h] <;> decide
  · intro h
    rw [h]
    decide

/-- Witness for C9: rotating the active document of sAB, whose rotation is
90, moves it to 180 and keeps it in the permitted set. -/
theorem rotate_current_image_mod360_witness :
    ∃ s2, rotate_current_image sAB = some s2 ∧
      (s2.images.get? sAB.current_index).map (fun d => d.settings.rotate) =
        some ((docA.settings.rotate + 90) % 360) ∧
      ((docA.settings.rotate + 90) % 360 = 0 ∨ (docA.settings.rotate + 90) % 360 = 90 ∨
       (docA.settings.rotate + 90) % 360 = 180 ∨ (docA.settings.rotate + 90) % 360 = 270) ∧
      (docA.settings.rotate = 270 → (docA.settings.rotate + 90) % 360 = 0) :=
  rotate_current_image_mod360 sAB docA (by decide) (by decide)

lemma image_data_map_getD (s : SessionState)
    (hnodup : (s.images.map (fun d => d.file_id)).Nodup) (d : Doc) (hd : d ∈ s.images) :
    (image_data_map s.images d.file_id).getD dfltDoc = d := by
  rw [image_data_map_mem s.images hnodup d hd]
  rfl

/-- Claim C1: on a document list with pairwise distinct ids, reordering by
any permutation of those ids succeeds and produces a permutation of the
original document list: every document travels whole, keeping its id,
name, original image and settings; only positions change. -/
theorem reorder_perm_preserves_documents (s : SessionState) (new_order : List String)
    (hnodup : (s.images.map (fun d => d.file_id)).Nodup)
    (hperm : new_order.Perm (s.images.map (fun d => d.file_id))) :
    ∃ s2, page_order_reorder new_order s = some s2 ∧ s2.images.Perm s.images := by
  by_cases heq : s.images.map (fun d => d.file_id) = new_order
  · refine ⟨s, ?_, List.Perm.refl _⟩
    unfold page_order_reorder
    rw [if_pos heq]
  · have hforall : ∀ fid ∈ new_order,
        image_data_map s.images fid = some ((image_data_map s.images fid).getD dfltDoc) := by
      intro fid hfid
      have hmem : fid ∈ s.images.map (fun d => d.file_id) := hperm.subset hfid
      rcases List.mem_map.mp hmem with ⟨d, hd, rfl⟩
      rw [image_data_map_mem s.images hnodup d hd]
      rfl
    have hbuild := build_new_image_list_map s.images new_order
      (fun fid => (image_data_map s.images fid).getD dfltDoc) hforall
    have hro : page_order_reorder new_order s =
        some { s with images := reorderedImages s new_order } := by
      unfold page_order_reorder reorderedImages
      rw [if_neg heq, hbuild]
      rfl
    refine ⟨_, hro, ?_⟩
    show (reorderedImages s new_order).Perm s.images
    have h1 := hperm.map (fun fid => (image_data_map s.images fid).getD dfltDoc)
    have h2 : (s.images.map (fun d => d.file_id)).map
        (fun fid => (image_data_map s.images fid).getD dfltDoc) = s.images := by
      rw [List.map_map]
      have hcongr : s.images.map
          ((fun fid => (image_data_map s.images fid).getD dfltDoc) ∘ (fun d => d.file_id)) =
          s.images.map id :=
        List.map_congr_left (fun d hd => image_data_map_getD s hnodup d hd)
      rw [hcongr, List.map_id]
    unfold reorderedImages
    rw [h2] at h1
    exact h1

/-- Witness for C1: reordering sAB by the id order b, a succeeds and
permutes the two documents. -/
theorem reorder_perm_preserves_documents_witness :
    ∃ s2, page_order_reorder ["b", "a"] sAB = some s2 ∧ s2.images.Perm sAB.images :=
  reorder_perm_preserves_documents sAB ["b", "a"] (by decide) (by decide)

/-- Claim C2 (amended): no range validation exists anywhere.  The setter
overwrites the style, brightness and contrast of the active document with
the widget values unconditionally, keeping its rotation; the rotation
dispatch of the pipeline treats every value other than 90, 180, 270 as no
rotation; and the pipeline renders successfully for the two known styles
whatever the brightness, contrast and rotation are. -/
theorem settings_not_validated :
    (∀ (s : SessionState) (doc : Doc), s.images.get? s.current_index = some doc →
      ∃ s2, update_current_image_settings s = some s2 ∧
        (s2.images.get? s.current_index).map (fun d => d.settings) =
          some { style := s.current_style, brightness := s.current_brightness,
                 contrast := s.current_contrast, rotate := doc.settings.rotate }) ∧
    (∀ (rot : ℤ) (img : Img), rot ≠ 90 → rot ≠ 180 → rot ≠ 270 → rotate_step rot img = img) ∧
    (∀ (clahe : Clahe) (m : Mat Pix) (s : Settings),
      (process_image clahe (Img.color m) s).isSome ↔
        (s.style = "Original" ∨ s.style = "Black & White")) := by
  refine ⟨?_, ?_, ?_⟩
  · intro s doc hget
    have hlt : s.current_index < s.images.length := (List.get?_eq_some.mp hget).1
    unfold update_current_image_settings
    rw [hget]
    refine ⟨_, rfl, ?_⟩
    show ((s.images.set s.current_index _).get? s.current_index).map (fun d => d.settings) = _
    rw [List.get?_set_eq_of_lt _ hlt]
    rfl
  · intro rot img h1 h2 h3
    unfold rotate_step
    rw [if_neg h1, if_neg h2, if_neg h3]
  · exact process_image_isSome_iff

/-- Counterexample for C2 as stated: with the out-of-range brightness 500
in the widget, the setter succeeds and stores brightness 500 into the
active document instead of failing with InvalidSettings and leaving the
settings unmodified; and the pipeline renders an image for brightness 500
together with the non-permitted rotation 45 instead of rejecting them. -/
theorem settings_not_validated_cx :
    (update_current_image_settings sBad).map
        (fun s2 => (s2.images.get? 0).map (fun d => d.settings.brightness)) =
      some (some 500) ∧
    docA.settings.brightness = 7 ∧ ((500 : ℤ) = 7 → False) ∧
    (process_image claheArb imgA ⟨"Original", 500, 1, 45⟩).isSome = true := by
  refine ⟨by decide, rfl, by decide, by decide⟩

lemma initialize_state_noop (imdecode : Imdecode) (uploads : List Upload) (s : SessionState)
    (hids : uploads.map (fun u => u.file_id) = s.file_ids)
    (hlt : s.current_index < s.images.length) :
    initialize_state imdecode uploads s = s := by
  unfold initialize_state
  rw [hids]
  dsimp only
  have h1 : ¬ (s.file_ids ≠ s.file_ids) := fun hh => hh rfl
  rw [if_neg h1, if_neg (Nat.not_le.mpr hlt)]

lemma initialize_state_replace (imdecode : Imdecode) (uploads : List Upload) (s : SessionState)
    (hne : uploads.map (fun u => u.file_id) ≠ s.file_ids) :
    initialize_state imdecode uploads s =
      { s with file_ids := uploads.map (fun u => u.file_id),
               images := uploads.map (mkDoc imdecode),
               current_index := 0 } := by
  unfold initialize_state
  dsimp only
  have h1 : s.file_ids ≠ uploads.map (fun u => u.file_id) := Ne.symm hne
  rw [if_pos h1]
  split
  · rfl
  · rfl

/-- Claim C5 (amended): initialize_state compares the stored and incoming
file ids as ordered lists, not as sets.  When the incoming id list equals
the stored one and the active index is in range, the call is a no-op and
all edits survive; when the lists differ - including the case of equal id
sets in a different order - the whole document list is rebuilt with
default settings (Original, brightness 0, contrast 1.0, rotation 0) and
the active index resets to 0. -/
theorem initialize_state_list_compare :
    (∀ (imdecode : Imdecode) (uploads : List Upload) (s : SessionState),
      uploads.map (fun u => u.file_id) = s.file_ids →
      s.current_index < s.images.length →
      initialize_state imdecode uploads s = s) ∧
    (∀ (imdecode : Imdecode) (uploads : List Upload) (s : SessionState),
      uploads.map (fun u => u.file_id) ≠ s.file_ids →
      initialize_state imdecode uploads s =
        { s with file_ids := uploads.map (fun u => u.file_id),
                 images := uploads.map (mkDoc imdecode),
                 current_index := 0 }) :=
  ⟨initialize_state_noop, initialize_state_replace⟩

/-- Counterexample for C5 as stated: the incoming id order b, a is a
permutation of the stored order a, b of sAB - the identifier sets are
equal - yet initialize_state rebuilds both documents with default
settings, wiping the edits of sAB (docA carried brightness 7 and rotation
90) instead of being a no-op. -/
theorem initialize_state_set_compare_cx :
    (["b", "a"] : List String).Perm ["a", "b"] ∧
    sAB.file_ids = ["a", "b"] ∧
    (initialize_state imdecodeTest [⟨"b", "B.jpg", [2]⟩, ⟨"a", "A.jpg", [1]⟩] sAB).images.map
        (fun d => d.settings) =
      [⟨"Original", 0, 1, 0⟩, ⟨"Original", 0, 1, 0⟩] ∧
    sAB.images.map (fun d => d.settings) ≠ [⟨"Original", 0, 1, 0⟩, ⟨"Original", 0, 1, 0⟩] := by
  refine ⟨by decide, rfl, by decide, by decide⟩

/-- Claim C6 (amended): decoding failure is not detected at load time.
Whenever the id list changes, initialize_state succeeds outright, storing
one document per upload in upload order; a source whose bytes fail to
decode yields a document whose stored image is None, with no error and no
document dropped, and the failure only surfaces later when that None is
rendered. -/
theorem decode_failure_stored (imdecode : Imdecode) (uploads : List Upload) (s : SessionState)
    (hchange : uploads.map (fun u => u.file_id) ≠ s.file_ids)
    (hfail : ∃ up ∈ uploads, imdecode up.raw = none) :
    (initialize_state imdecode uploads s).images = uploads.map (mkDoc imdecode) ∧
    (initialize_state imdecode uploads s).images.length = uploads.length ∧
    ∃ d ∈ (initialize_state imdecode uploads s).images, d.original_bgr = none := by
  have hrep := initialize_state_replace imdecode uploads s hchange
  refine ⟨by rw [hrep], by rw [hrep]; exact List.length_map uploads (mkDoc imdecode), ?_⟩
  rcases hfail with ⟨up, hup, hni⟩
  refine ⟨mkDoc imdecode up, ?_, hni⟩
  rw [hrep]
  exact List.mem_map_of_mem (mkDoc imdecode) hup

/-- Witness for C6: loading the two concrete uploads a and b into the
startup state with a decoder that fails on the bytes of b succeeds and
stores both documents, the second carrying None as its image. -/
theorem decode_failure_stored_witness :
    (initialize_state imdecodeTest [⟨"a", "A.jpg", [1]⟩, ⟨"b", "B.jpg", [9]⟩] s0).images =
      ([⟨"a", "A.jpg", [1]⟩, ⟨"b", "B.jpg", [9]⟩] : List Upload).map (mkDoc imdecodeTest) ∧
    (initialize_state imdecodeTest [⟨"a", "A.jpg", [1]⟩, ⟨"b", "B.jpg", [9]⟩] s0).images.length =
      ([⟨"a", "A.jpg", [1]⟩, ⟨"b", "B.jpg", [9]⟩] : List Upload).length ∧
    ∃ d ∈ (initialize_state imdecodeTest [⟨"a", "A.jpg", [1]⟩, ⟨"b", "B.jpg", [9]⟩] s0).images,
      d.original_bgr = none :=
  decode_failure_stored imdecodeTest [⟨"a", "A.jpg", [1]⟩, ⟨"b", "B.jpg", [9]⟩] s0
    (by decide) ⟨⟨"b", "B.jpg", [9]⟩, by decide, by decide⟩

/-- Counterexample for C6 as stated: with a decoder failing on the bytes
[9] of source b, initialize_state does not fail with DecodeError: it
produces the full two-document list, whose second entry stores None as
its image, contradicting the all-or-nothing load the claim states. -/
theorem decode_error_cx :
    (initialize_state imdecodeTest [⟨"a", "A.jpg", [1]⟩, ⟨"b", "B.jpg", [9]⟩] s0).images.length =
      2 ∧
    ((initialize_state imdecodeTest [⟨"a", "A.jpg", [1]⟩, ⟨"b", "B.jpg", [9]⟩] s0).images.get?
        1).map (fun d => d.original_bgr) = some none ∧
    imdecodeTest [9] = none := by
  refine ⟨by decide, by decide, by decide⟩

lemma map_settings_fuse (l : List Doc) (cs cs2 : Settings) :
    (l.map (fun d => { d with settings := cs })).map (fun d => { d with settings := cs2 }) =
      l.map (fun d => { d with settings := cs2 }) := by
  rw [List.map_map]
  exact List.map_congr_left (fun d _ => rfl)

lemma apply_to_all_apply (s : SessionState) (doc : Doc)
    (hget : s.images.get? s.current_index = some doc) :
    apply_to_all s =
      some { s with images := s.images.map (fun d => { d with settings := widgetSettings s doc }) } := by
  unfold apply_to_all widgetSettings
  rw [hget]
  rfl

lemma apply_to_all_twice (s s2 : SessionState) (h : apply_to_all s = some s2) :
    apply_to_all s2 = some s2 := by
  unfold apply_to_all at h ⊢
  cases hget : s.images.get? s.current_index with
  | none => rw [hget] at h; cases h
  | some doc =>
    rw [hget] at h
    simp only [Option.map_some'] at h
    injection h with h2
    subst h2
    dsimp only
    rw [List.get?_map, hget]
    simp only [Option.map_some']
    congr 1
    congr 1
    rw [map_settings_fuse]

/-- Claim C7: with the widget keys mirroring the settings of the active
document (the synchronization the UI maintains through its widget
defaults and on-change callbacks), apply_to_all overwrites the settings
of every document with the full settings record of the active document,
rotation included, while every id, name and image stays in place; and the
operation is idempotent: applied to its own result it returns that result
unchanged. -/
theorem apply_to_all_copies_and_idempotent (s : SessionState) (doc : Doc)
    (hget : s.images.get? s.current_index = some doc)
    (hstyle : s.current_style = doc.settings.style)
    (hbright : s.current_brightness = doc.settings.brightness)
    (hcontrast : s.current_contrast = doc.settings.contrast) :
    ∃ s2, apply_to_all s = some s2 ∧
      (∀ d ∈ s2.images, d.settings = doc.settings) ∧
      s2.images.map (fun d => (d.file_id, d.name, d.original_bgr)) =
        s.images.map (fun d => (d.file_id, d.name, d.original_bgr)) ∧
      apply_to_all s2 = some s2 := by
  have h1 := apply_to_all_apply s doc hget
  refine ⟨_, h1, ?_, ?_, apply_to_all_twice s _ h1⟩
  · intro d hd
    rcases List.mem_map.mp hd with ⟨x, hx, rfl⟩
    show widgetSettings s doc = doc.settings
    unfold widgetSettings
    rw [hstyle, hbright, hcontrast]
  · show (s.images.map (fun d => { d with settings := widgetSettings s doc })).map
        (fun d => (d.file_id, d.name, d.original_bgr)) =
      s.images.map (fun d => (d.file_id, d.name, d.original_bgr))
    rw [List.map_map]
    exact List.map_congr_left (fun d _ => rfl)

/-- Witness for C7: applying the settings of docA (the active document of
sAB, whose widgets mirror it) to all documents copies them onto docB as
well, and doing it again changes nothing. -/
theorem apply_to_all_copies_and_idempotent_witness :
    ∃ s2, apply_to_all sAB = some s2 ∧
      (∀ d ∈ s2.images, d.settings = docA.settings) ∧
      s2.images.map (fun d => (d.file_id, d.name, d.original_bgr)) =
        sAB.images.map (fun d => (d.file_id, d.name, d.original_bgr)) ∧
      apply_to_all s2 = some s2 :=
  apply_to_all_copies_and_idempotent sAB docA (by decide) rfl rfl rfl

lemma affine_eq_div (c : ℚ) (b : ℤ) (v : ℕ) :
    (v : ℚ) * c + (b : ℚ) =
      (((v : ℤ) * c.num + b * (c.den : ℤ) : ℤ) : ℚ) / ((c.den : ℕ) : ℚ) := by
  have hden : ((c.den : ℚ)) ≠ 0 := by
    exact_mod_cast c.den_nz
  have hkey : c * ((c.den : ℕ) : ℚ) = ((c.num : ℤ) : ℚ) := by
    nth_rewrite 1 [← Rat.num_div_den c]
    exact div_mul_cancel₀ _ hden
  rw [eq_div_iff hden]
  push_cast
  rw [add_mul, mul_assoc]
  push_cast at hkey
  rw [hkey]

lemma round_div_eq (n d : ℕ) (hd : d ≠ 0) :
    round ((n : ℚ) / (d : ℚ)) = (((2 * n + d) / (2 * d) : ℕ) : ℤ) := by
  have hdq : ((d : ℚ)) ≠ 0 := by exact_mod_cast hd
  rw [round_eq]
  have hx : (n : ℚ) / (d : ℚ) + 1 / 2 = ((2 * n + d : ℕ) : ℚ) / ((2 * d : ℕ) : ℚ) := by
    push_cast
    field_simp
    ring
  rw [hx, Rat.floor_natCast_div_natCast]
  exact (Int.ofNat_ediv _ _).symm

lemma scaleAbs_eq_round (c : ℚ) (b : ℤ) (v : ℕ) :
    scaleAbs c b v = min 255 (round |(v : ℚ) * c + (b : ℚ)|).toNat := by
  have habs : |(v : ℚ) * c + (b : ℚ)| =
      ((((v : ℤ) * c.num + b * (c.den : ℤ)).natAbs : ℕ) : ℚ) / ((c.den : ℕ) : ℚ) := by
    rw [affine_eq_div, abs_div]
    congr 1
    · rw [Int.cast_natAbs]
      exact Int.cast_abs.symm
    · rw [abs_of_nonneg (by positivity)]
  rw [habs, round_div_eq _ _ c.den_nz, Int.toNat_natCast]
  rfl

/-- Claim C8 (amended): process_image applies its steps in the fixed
order rotate, then brightness/contrast, then style, then output
normalization, and the normalization replicates a single-channel result
to three channels; but the per-channel transform is
min(255, round(abs(input * contrast + brightness))) - the absolute value
of the affine value - which agrees with the clamp(., 0, 255) the spec
states only when the affine value is nonnegative. -/
theorem process_image_pipeline_order :
    (∀ (clahe : Clahe) (bgr : Img) (s : Settings),
      process_image clahe bgr s =
        (style_step clahe s.style
          (adjust_brightness_contrast (rotate_step s.rotate bgr) s.brightness s.contrast)).map
          finalToPIL) ∧
    (∀ g : Mat ℕ, finalToPIL (Img.gray g) = mapMat (fun v => ⟨v, v, v⟩) g) ∧
    (∀ (c : ℚ) (b : ℤ) (v : ℕ),
      scaleAbs c b v = min 255 (round |(v : ℚ) * c + (b : ℚ)|).toNat) ∧
    (∀ (c : ℚ) (b : ℤ) (v : ℕ), 0 ≤ (v : ℚ) * c + (b : ℚ) →
      scaleAbs c b v = bc_spec_pixel c b v) := by
  refine ⟨fun clahe bgr s => rfl, fun g => rfl, scaleAbs_eq_round, ?_⟩
  intro c b v h
  have hdpos : (0 : ℚ) < ((c.den : ℕ) : ℚ) := by
    exact_mod_cast Nat.pos_of_ne_zero c.den_nz
  have hp : (0 : ℚ) ≤ (((v : ℤ) * c.num + b * (c.den : ℤ) : ℤ) : ℚ) := by
    rw [affine_eq_div] at h
    by_contra hneg
    push_neg at hneg
    have hlt := div_neg_of_neg_of_pos hneg hdpos
    linarith
  have hpz : (0 : ℤ) ≤ (v : ℤ) * c.num + b * (c.den : ℤ) := by exact_mod_cast hp
  have hna : ((v : ℤ) * c.num + b * (c.den : ℤ)).natAbs =
      ((v : ℤ) * c.num + b * (c.den : ℤ)).toNat := by omega
  unfold scaleAbs bc_spec_pixel
  rw [if_neg (by omega), hna]

/-- Counterexample for C8 as stated: at the valid settings record
(Original, brightness -100, contrast 1.0, rotation 0) on a black 1-by-1
3-channel image, process_image renders the pixel value 100 = abs(0 - 100)
per channel, while the clamp(input * contrast + brightness, 0, 255)
formula the claim states yields 0, so the brightness/contrast step of the
code is not the stated clamp. -/
theorem brightness_abs_vs_clamp_cx :
    process_image claheArb (Img.color [[⟨0, 0, 0⟩]]) ⟨"Original", -100, 1, 0⟩ =
      some [[⟨100, 100, 100⟩]] ∧
    process_image_spec claheArb (Img.color [[⟨0, 0, 0⟩]]) ⟨"Original", -100, 1, 0⟩ =
      some [[⟨0, 0, 0⟩]] ∧
    (some [[(⟨100, 100, 100⟩ : Pix)]] : Option (Mat Pix)) ≠ some [[⟨0, 0, 0⟩]] := by
  refine ⟨by decide, by decide, by decide⟩

end ImageToPdf
